import Mathlib

/-!
Shallow embedding of `lib/IRGen/IRGenDebugInfo.h`: the debug-metadata
emitter's location/scope tracker, its caches and its emission entry
points, together with proofs of the specified properties.

Opaque C++ pointers (`SILDebugScope *`, `SILFunction *`, `llvm::Value *`,
`llvm::Function *`, `SILModule *`) are embedded as `Nat` identities; a
nullable pointer is an `Option Nat`.
-/

namespace IRGenDebug

/-- `Location` from the header: `{ unsigned Line, Col; const char *Filename; }`. -/
structure Location where
  line : Nat
  col : Nat
  filename : Option Nat
deriving DecidableEq, Repr

/-- Value-initialisation (`{}`) of `Location`: all fields zeroed, so line 0,
column 0, null filename. -/
def Location.empty : Location := ⟨0, 0, none⟩

/-- `FullLocation` from the header: `{ Location LocForLinetable, Loc; }`. -/
structure FullLocation where
  locForLinetable : Location
  loc : Location
deriving DecidableEq, Repr

/-- Value-initialisation (`{}`) of `FullLocation`. -/
def FullLocation.empty : FullLocation := ⟨Location.empty, Location.empty⟩

/-- An `llvm::DebugLoc`: a (line, column, scope) triple attached to emitted
instructions. The scope may be null. -/
structure DebugLoc where
  line : Nat
  col : Nat
  scope : Option Nat
deriving DecidableEq, Repr

/-- The default-constructed, empty `llvm::DebugLoc()`. -/
def DebugLoc.empty : DebugLoc := ⟨0, 0, none⟩

/-- `llvm::DebugLoc::get(Line, Col, Scope)`. -/
def DebugLoc.get (line col : Nat) (scope : Option Nat) : DebugLoc :=
  ⟨line, col, scope⟩

/-- `DebugLoc::getScope`: the scope component (null for the empty location). -/
def DebugLoc.getScope (dl : DebugLoc) : Option Nat := dl.scope

/-- The slice of `IRBuilder` state the debug-info emitter touches: its
current debug location. -/
structure IRBuilder where
  currentDebugLocation : DebugLoc
deriving DecidableEq, Repr

/-- `Builder.SetCurrentDebugLocation(DL)`. -/
def IRBuilder.SetCurrentDebugLocation (b : IRBuilder) (dl : DebugLoc) : IRBuilder :=
  { b with currentDebugLocation := dl }

/-- `Builder.getCurrentDebugLocation()`. -/
def IRBuilder.getCurrentDebugLocation (b : IRBuilder) : DebugLoc :=
  b.currentDebugLocation

/-- The location-tracking state of `IRGenDebugInfo`:
`FullLocation LastLoc`, `SILDebugScope *LastScope` (nullable), and the
`SmallVector<std::pair<FullLocation, SILDebugScope*>, 8> LocationStack`.
The list head models the back of the vector (the stack top), since
`push_back`/`pop_back_val` operate LIFO on the back. -/
structure EmitterState where
  lastLoc : FullLocation
  lastScope : Option Nat
  locationStack : List (FullLocation × Option Nat)
deriving DecidableEq, Repr

/-- `clearLoc(Builder)`:
`LastLoc = {}; LastScope = nullptr; Builder.SetCurrentDebugLocation(llvm::DebugLoc());`. -/
def clearLoc (s : EmitterState) (b : IRBuilder) : EmitterState × IRBuilder :=
  ({ s with lastLoc := FullLocation.empty, lastScope := none },
   b.SetCurrentDebugLocation DebugLoc.empty)

/-- `pushLoc()`:
`LocationStack.push_back(std::make_pair(LastLoc, LastScope)); LastLoc = {};
LastScope = nullptr;` (the `Builder.SetCurrentDebugLocation` call in the
body is commented out in the source). -/
def pushLoc (s : EmitterState) : EmitterState :=
  { lastLoc := FullLocation.empty,
    lastScope := none,
    locationStack := (s.lastLoc, s.lastScope) :: s.locationStack }

/-- `popLoc()`: `std::tie(LastLoc, LastScope) = LocationStack.pop_back_val();`.
`SmallVector::pop_back_val` asserts the vector is non-empty; popping an
empty stack is a fatal programming error, embedded as `none`. -/
def popLoc (s : EmitterState) : Option EmitterState :=
  match s.locationStack with
  | [] => none
  | (loc, scope) :: rest =>
      some { lastLoc := loc, lastScope := scope, locationStack := rest }

/-- `ArtificialLocation::ArtificialLocation(DI, Builder)` with a non-null
`DI` (the `if (DI)` branch taken): calls `DI->pushLoc()`, reads the scope of
the Builder's current debug location, and sets the Builder's location to
`DebugLoc::get(0, 0, Scope)`. -/
def pushArtificialLocation (s : EmitterState) (b : IRBuilder) :
    EmitterState × IRBuilder :=
  (pushLoc s,
   b.SetCurrentDebugLocation
     (DebugLoc.get 0 0 (b.getCurrentDebugLocation.getScope)))

/-- `ArtificialLocation`'s constructor over a nullable `DI` pointer:
with a null `DI` the guarded body is skipped entirely. -/
def ArtificialLocation.construct (di : Option EmitterState) (b : IRBuilder) :
    Option EmitterState × IRBuilder :=
  match di with
  | none => (none, b)
  | some s => let (s', b') := pushArtificialLocation s b; (some s', b')

/-- `~ArtificialLocation()`: `if (DI) DI->popLoc();`. With a null `DI`
nothing happens; otherwise `popLoc` runs (fatal, i.e. `none`, on an empty
stack). -/
def ArtificialLocation.destruct (di : Option EmitterState) (b : IRBuilder) :
    Option (Option EmitterState × IRBuilder) :=
  match di with
  | none => some (none, b)
  | some s => (popLoc s).map fun s' => (some s', b)

/-! ### Balanced push/pop sequences (for the round-trip property) -/

/-- One step of the location-stack discipline. -/
inductive LocOp where
  | push : LocOp
  | pop : LocOp
deriving DecidableEq, Repr

/-- Run one operation; `pop` on an empty stack is fatal (`none`). -/
def runOp (s : EmitterState) : LocOp → Option EmitterState
  | LocOp.push => some (pushLoc s)
  | LocOp.pop => popLoc s

/-- Run a sequence of push/pop operations left to right. -/
def runOps (s : EmitterState) : List LocOp → Option EmitterState
  | [] => some s
  | op :: rest =>
      match runOp s op with
      | none => none
      | some s' => runOps s' rest

/-- Balanced (Dyck) sequences of push/pop operations. -/
inductive Balanced : List LocOp → Prop where
  | nil : Balanced []
  | wrap {l : List LocOp} : Balanced l →
      Balanced (LocOp.push :: (l ++ [LocOp.pop]))
  | append {l₁ l₂ : List LocOp} : Balanced l₁ → Balanced l₂ →
      Balanced (l₁ ++ l₂)

/-- Maximum nesting depth of a sequence, starting from depth `d`. A `pop`
below depth zero is clamped (such sequences are not balanced anyway). -/
def maxDepthFrom (d : Nat) : List LocOp → Nat
  | [] => d
  | LocOp.push :: rest => max (d + 1) (maxDepthFrom (d + 1) rest)
  | LocOp.pop :: rest => max d (maxDepthFrom (d - 1) rest)

/-- Maximum nesting depth of a push/pop sequence. -/
def maxDepth (l : List LocOp) : Nat := maxDepthFrom 0 l

/-! ### Types and the type cache -/

/-- The kinds of types the descriptor builder handles (spec §3). -/
inductive TypeKind where
  | scalar
  | struct
  | enum
  | tuple
  | function
deriving DecidableEq, Repr

/-- `DebugTypeInfo`: the semantic description of a type handed to
`getOrCreateType`. Its identity is the canonical type (the `TypeBase *`
key of `DITypeCache`): two descriptors of equal identity have the same
`canonicalType`. -/
structure DebugTypeInfo where
  canonicalType : Nat
  kind : TypeKind
  sizeInBits : Nat
  alignInBits : Nat
deriving DecidableEq, Repr

/-- The state of the type cache:
`llvm::DenseMap<TypeBase*, llvm::WeakVH> DITypeCache` (an association
from canonical-type identity to metadata node) plus a fresh-node counter
standing for the sink's node allocator. -/
structure TypeCacheState where
  DITypeCache : List (Nat × Nat)
  nextNode : Nat
deriving DecidableEq, Repr

/-- Modelled from the spec: the body of `createType` is not in the header
(`src/` holds only its declaration); per §4.3 it builds a fresh metadata
node through the sink, embedded as allocating the next node identity. -/
def createType (st : TypeCacheState) : Nat × TypeCacheState :=
  (st.nextNode, { st with nextNode := st.nextNode + 1 })

/-- Modelled from the spec: the body of `getOrCreateType` is not in the
header (`src/` holds only its declaration and the `DITypeCache` field);
per §4.2/§4.3 it computes the type identity (the canonical type), looks
it up in `DITypeCache`, returns the cached node on a hit, and otherwise
builds the node via `createType` and stores it under the identity. -/
def getOrCreateType (dbgTy : DebugTypeInfo) (st : TypeCacheState) :
    Nat × TypeCacheState :=
  match st.DITypeCache.lookup dbgTy.canonicalType with
  | some node => (node, st)
  | none =>
      let res := createType st
      (res.1,
       { res.2 with
           DITypeCache := (dbgTy.canonicalType, res.1) :: res.2.DITypeCache })

/-! ### Argument numbering -/

/-- The memo used by `getArgNo`: `SILFunction *LastFn` and the
iterator/counter pair (`LastArg`/`LastEnd`, `LastArgNo`), embedded as the
last queried function's identity and a cursor position into its argument
list. -/
structure ArgMemo where
  LastFn : Option Nat
  LastArgPos : Nat
deriving DecidableEq, Repr

/-- Modelled from the spec: the body of `getArgNo` is not in the header
(`src/` holds only its declaration and the memo fields `LastFn`,
`LastArg`, `LastEnd`, `LastArgNo`). Per §4.4 it memoizes the last queried
function and an iterator cursor into that function's argument list,
resetting the cursor whenever the function changes; a query matching the
cursor is answered from it, any other query rescans the argument list
from the front. Querying an argument not in the list is an out-of-range
contract error (fatal), embedded as `none`. The function is given by its
identity `fnId` and its list `args` of argument-value identities. -/
def getArgNo (fnId : Nat) (args : List Nat) (arg : Nat) (m : ArgMemo) :
    Option Nat × ArgMemo :=
  if m.LastFn = some fnId ∧ args.get? m.LastArgPos = some arg then
    (some m.LastArgPos, { m with LastArgPos := m.LastArgPos + 1 })
  else
    match args.findIdx? (· == arg) with
    | some i => (some i, { LastFn := some fnId, LastArgPos := i + 1 })
    | none => (none, m)

/-! ### Variable emission -/

/-- `enum IndirectionKind : bool { DirectValue = false, IndirectValue = true }`. -/
inductive IndirectionKind where
  | DirectValue
  | IndirectValue
deriving DecidableEq, Repr

/-- `enum ArtificialKind : bool { RealValue = false, ArtificialValue = true }`. -/
inductive ArtificialKind where
  | RealValue
  | ArtificialValue
deriving DecidableEq, Repr

/-- `enum IntrinsicKind : bool { Declare = false, Value = true }`. -/
inductive IntrinsicKind where
  | Declare
  | Value
deriving DecidableEq, Repr

/-- The metadata attachment produced by one `emitVariableDeclaration`
call: all of the call's parameters. -/
structure VariableDeclarationEmission where
  storage : Nat
  ty : DebugTypeInfo
  name : String
  tag : Nat
  argNo : Nat
  indirection : IndirectionKind
  artificial : ArtificialKind
  intrinsic : IntrinsicKind
deriving DecidableEq, Repr

/-- Modelled from the spec: the body of `emitVariableDeclaration` is not
in the header (`src/` holds only its declaration); per §4.5 it emits a
variable-declaration metadata attachment at the Builder's current debug
location carrying the storage, type, name, tag, argument number,
indirection kind, artificial kind and intrinsic kind. The emission is
embedded as the record of those parameters, with the Builder unchanged. -/
def emitVariableDeclaration (b : IRBuilder) (storage : Nat)
    (ty : DebugTypeInfo) (name : String) (tag argNo : Nat)
    (indirection : IndirectionKind) (artificial : ArtificialKind)
    (intrinsic : IntrinsicKind) : VariableDeclarationEmission × IRBuilder :=
  (⟨storage, ty, name, tag, argNo, indirection, artificial, intrinsic⟩, b)

/-- Calling `emitVariableDeclaration` while omitting its trailing
parameters: the header declares the defaults `ArgNo = 0`,
`IndirectionKind = DirectValue`, `ArtificialKind = RealValue`,
`IntrinsicKind = Declare`, which the C++ compiler substitutes at such a
call site. -/
def emitVariableDeclarationDefaulted (b : IRBuilder) (storage : Nat)
    (ty : DebugTypeInfo) (name : String) (tag : Nat) :
    VariableDeclarationEmission × IRBuilder :=
  emitVariableDeclaration b storage ty name tag 0 IndirectionKind.DirectValue
    ArtificialKind.RealValue IntrinsicKind.Declare

/-! ### Artificial-function emission -/

/-- The slice of `IRGenModule` the overload forwarding reads:
`SILModule *SILMod` as a pointer identity. -/
structure IRGenModule where
  SILMod : Nat
deriving DecidableEq, Repr

/-- The slice of `IRGenFunction` the overload forwarding reads: its
`IGM` and its `Builder`. -/
structure IRGenFunction where
  IGM : IRGenModule
  Builder : IRBuilder
deriving DecidableEq, Repr

/-- The result of one artificial-function emission: which module, native
function and signature were emitted, and the Builder state afterwards. -/
structure ArtificialFunctionEmission where
  silMod : Nat
  fn : Nat
  silTy : Option Nat
  builderAfter : IRBuilder
deriving DecidableEq, Repr

/-- Modelled from the spec: the body of the four-argument
`emitArtificialFunction(SILMod, Builder, Fn, SILTy)` is not in the header
(`src/` holds only its declaration); per §4.5 it emits a function
declaration with no real source location and immediately establishes the
function's scope as current, embedded as recording the emission and
setting the Builder's debug location to line 0 / column 0 within the new
function's scope. -/
def emitArtificialFunction (silMod : Nat) (b : IRBuilder) (fn : Nat)
    (silTy : Option Nat) : ArtificialFunctionEmission :=
  ⟨silMod, fn, silTy,
   b.SetCurrentDebugLocation (DebugLoc.get 0 0 (some fn))⟩

/-- The convenience overload from the header (its body is in `src/`):
`emitArtificialFunction(IGF, Fn, SILTy)` forwards to
`emitArtificialFunction(*IGF.IGM.SILMod, IGF.Builder, Fn, SILTy)`. -/
def emitArtificialFunctionIGF (igf : IRGenFunction) (fn : Nat)
    (silTy : Option Nat) : ArtificialFunctionEmission :=
  emitArtificialFunction igf.IGM.SILMod igf.Builder fn silTy

theorem runOps_append (l₁ l₂ : List LocOp) (s : EmitterState) :
    runOps s (l₁ ++ l₂) = (runOps s l₁).bind fun s' => runOps s' l₂ := by
  induction l₁ generalizing s with
  | nil => rfl
  | cons op rest ih =>
      simp only [List.cons_append, runOps]
      cases runOp s op with
      | none => rfl
      | some s' => exact ih s'

theorem popLoc_pushLoc (s : EmitterState) : popLoc (pushLoc s) = some s := by
  cases s
  rfl

/-- A balanced sequence of pushes and pops is a no-op on the whole tracker
state (context and stack alike). -/
theorem runOps_balanced {l : List LocOp} (hl : Balanced l)
    (s : EmitterState) : runOps s l = some s := by
  induction hl generalizing s with
  | nil => rfl
  | wrap _ ih =>
      show runOps s (LocOp.push :: _) = some s
      simp only [runOps, runOp]
      rw [runOps_append, ih (pushLoc s)]
      simp only [Option.bind_some, runOps, runOp, popLoc_pushLoc,
        Option.some_bind]
  | append _ _ ih₁ ih₂ =>
      rw [runOps_append, ih₁ s]
      exact ih₂ s

end IRGenDebug

namespace IRGenDebug

/-- C2: For every balanced sequence of pushArtificialLocation/popLocation
calls of nesting depth up to 100, the emission context (the pair of last
location and last scope) after the final pop equals exactly the emission
context in effect before the matching push. (The whole tracker state,
stack included, is restored; the depth bound is not even needed.) -/
theorem push_pop_roundtrip (l : List LocOp) (s : EmitterState)
    (hbal : Balanced l) (_hdepth : maxDepth l ≤ 100) :
    runOps s l = some s :=
  runOps_balanced hbal s

theorem push_pop_roundtrip_witness :
    Balanced [LocOp.push, LocOp.pop] ∧
      maxDepth [LocOp.push, LocOp.pop] ≤ 100 ∧
      runOps ⟨⟨⟨1, 2, some 3⟩, ⟨4, 5, some 6⟩⟩, some 7, []⟩
        [LocOp.push, LocOp.pop] =
        some ⟨⟨⟨1, 2, some 3⟩, ⟨4, 5, some 6⟩⟩, some 7, []⟩ :=
  ⟨Balanced.wrap Balanced.nil, by decide,
   push_pop_roundtrip [LocOp.push, LocOp.pop]
     ⟨⟨⟨1, 2, some 3⟩, ⟨4, 5, some 6⟩⟩, some 7, []⟩
     (Balanced.wrap Balanced.nil) (by decide)⟩

/-- C1 counterexample: `pushArtificialLocation` does NOT preserve the
current scope of the emission context. Starting from `LastScope = some 5`,
the tracked scope after the push is `none` (the constructor calls
`pushLoc`, which sets `LastScope = nullptr`), not `some 5`. -/
theorem pushArtificial_scope_not_preserved :
    ((pushArtificialLocation ⟨FullLocation.empty, some 5, []⟩
        ⟨⟨3, 4, some 6⟩⟩).1).lastScope ≠ some 5 := by
  decide

/-- C1 (amended): `pushArtificialLocation` saves the current emission
context onto the context stack and sets the current location to the empty
location (line 0 / column 0); however the tracked current scope is cleared
to null rather than preserved — the scope is preserved only in the
Builder's debug location, which is set to line 0 / column 0 with the
Builder's previous scope. -/
theorem pushArtificialLocation_spec (s : EmitterState) (b : IRBuilder) :
    pushArtificialLocation s b =
      (⟨FullLocation.empty, none, (s.lastLoc, s.lastScope) :: s.locationStack⟩,
       ⟨⟨0, 0, b.currentDebugLocation.scope⟩⟩) := rfl

/-- C3: calling `getOrCreateType` twice with descriptors of equal identity
(the same canonical type) returns the identical metadata node both times,
for every type kind carried by the descriptors. -/
theorem getOrCreateType_idempotent (d₁ d₂ : DebugTypeInfo)
    (st : TypeCacheState) (h : d₁.canonicalType = d₂.canonicalType) :
    (getOrCreateType d₂ (getOrCreateType d₁ st).2).1 =
      (getOrCreateType d₁ st).1 := by
  unfold getOrCreateType
  cases hlook : st.DITypeCache.lookup d₁.canonicalType with
  | some node => simp [← h, hlook]
  | none => simp [← h, hlook, createType, List.lookup]

theorem getOrCreateType_idempotent_witness :
    (⟨1, TypeKind.struct, 64, 32⟩ : DebugTypeInfo).canonicalType =
        (⟨1, TypeKind.struct, 64, 32⟩ : DebugTypeInfo).canonicalType ∧
      (getOrCreateType ⟨1, TypeKind.struct, 64, 32⟩
          (getOrCreateType ⟨1, TypeKind.struct, 64, 32⟩ ⟨[], 0⟩).2).1 =
        (getOrCreateType ⟨1, TypeKind.struct, 64, 32⟩ ⟨[], 0⟩).1 :=
  ⟨rfl, getOrCreateType_idempotent ⟨1, TypeKind.struct, 64, 32⟩
    ⟨1, TypeKind.struct, 64, 32⟩ ⟨[], 0⟩ rfl⟩

/-- C4: `popLoc` on an empty location stack is a fatal programming error
(`pop_back_val` on an empty `SmallVector`, embedded as `none`); whenever
the stack is non-empty — as guaranteed when every pop is preceded by a
matching push — the failure branch is not taken and `popLoc` restores the
current context from the top of the stack, removing it. -/
theorem popLoc_spec :
    (∀ s : EmitterState, s.locationStack = [] → popLoc s = none) ∧
      (∀ (s : EmitterState) (top : FullLocation × Option Nat)
          (rest : List (FullLocation × Option Nat)),
          s.locationStack = top :: rest →
          popLoc s = some ⟨top.1, top.2, rest⟩) := by
  constructor
  · intro s h
    unfold popLoc
    rw [h]
  · intro s top rest h
    obtain ⟨loc, scope⟩ := top
    unfold popLoc
    rw [h]

theorem popLoc_spec_witness :
    popLoc ⟨FullLocation.empty, none, []⟩ = none ∧
      popLoc ⟨FullLocation.empty, none,
          [(⟨⟨1, 2, some 3⟩, ⟨4, 5, some 6⟩⟩, some 7)]⟩ =
        some ⟨⟨⟨1, 2, some 3⟩, ⟨4, 5, some 6⟩⟩, some 7, []⟩ :=
  ⟨popLoc_spec.1 ⟨FullLocation.empty, none, []⟩ rfl,
   popLoc_spec.2 ⟨FullLocation.empty, none,
      [(⟨⟨1, 2, some 3⟩, ⟨4, 5, some 6⟩⟩, some 7)]⟩
     (⟨⟨1, 2, some 3⟩, ⟨4, 5, some 6⟩⟩, some 7) [] rfl⟩

theorem findIdx?_beq_of_nodup {l : List Nat} {a : Nat} {i : Nat}
    (hnodup : l.Nodup) (hi : l.get? i = some a) :
    l.findIdx? (fun x => x == a) = some i := by
  induction l generalizing i with
  | nil => simp at hi
  | cons x xs ih =>
      rcases i with _ | n
      · simp only [List.get?_cons_zero, Option.some.injEq] at hi
        subst hi
        simp
      · simp only [List.get?_cons_succ] at hi
        have hxs : xs.Nodup := (List.nodup_cons.mp hnodup).2
        have hx : (x == a) = false := by
          have hmem : a ∈ xs := List.get?_mem hi
          have hne : x ≠ a := fun hxa =>
            (List.nodup_cons.mp hnodup).1 (hxa ▸ hmem)
          simpa using hne
        rw [List.findIdx?_cons, hx]
        simp only [if_neg Bool.false_ne_true, List.findIdx?_succ]
        rw [ih hxs hi]
        rfl

/-- C5: for a function with argument list `args` (no duplicate argument
values), querying the argument stored at index `i` returns exactly `i`,
whatever the memo state `m` — so queries in increasing order return
`0..N-1` exactly once each, out-of-order queries still return the correct
index, and a memo left over from a different function is never reported
as the answer. -/
theorem getArgNo_correct (fnId : Nat) (args : List Nat) (arg i : Nat)
    (m : ArgMemo) (hnodup : args.Nodup) (hi : args.get? i = some arg) :
    (getArgNo fnId args arg m).1 = some i := by
  unfold getArgNo
  by_cases hguard : m.LastFn = some fnId ∧ args.get? m.LastArgPos = some arg
  · rw [if_pos hguard]
    have hlen : i < args.length := by
      by_contra hge
      rw [List.get?_eq_none.mpr (Nat.le_of_not_lt hge)] at hi
      exact Option.noConfusion hi
    have : m.LastArgPos = i := by
      have hlen' : m.LastArgPos < args.length := by
        by_contra hge
        rw [List.get?_eq_none.mpr (Nat.le_of_not_lt hge)] at hguard
        exact Option.noConfusion hguard.2
      refine List.getElem?_inj hlen' hnodup ?_
      rw [← List.get?_eq_getElem?, ← List.get?_eq_getElem?]
      exact hguard.2.trans hi.symm
    rw [this]
  · rw [if_neg hguard, findIdx?_beq_of_nodup hnodup hi]

theorem getArgNo_correct_witness :
    ([10, 20, 30] : List Nat).Nodup ∧
      ([10, 20, 30] : List Nat).get? 1 = some 20 ∧
      (getArgNo 1 [10, 20, 30] 20 ⟨some 0, 5⟩).1 = some 1 :=
  ⟨by decide, by decide,
   getArgNo_correct 1 [10, 20, 30] 20 1 ⟨some 0, 5⟩ (by decide) (by decide)⟩

/-- C6: `clearLoc` resets the current emission context to the
empty/undefined context: `LastLoc` becomes the empty location (line 0 /
column 0), `LastScope` becomes null, and the Builder's current debug
location becomes the empty `llvm::DebugLoc()`. -/
theorem clearLoc_spec (s : EmitterState) (b : IRBuilder) :
    (clearLoc s b).1.lastLoc = FullLocation.empty ∧
      (clearLoc s b).1.lastScope = none ∧
      (clearLoc s b).2.currentDebugLocation = DebugLoc.empty :=
  ⟨rfl, rfl, rfl⟩

/-- C7: calling `emitVariableDeclaration` without the trailing arguments
behaves identically to calling it with `ArgNo = 0`, `DirectValue`,
`RealValue` and `Declare` explicitly (the declared default arguments). -/
theorem emitVariableDeclaration_defaults (b : IRBuilder) (storage : Nat)
    (ty : DebugTypeInfo) (name : String) (tag : Nat) :
    emitVariableDeclarationDefaulted b storage ty name tag =
      emitVariableDeclaration b storage ty name tag 0
        IndirectionKind.DirectValue ArtificialKind.RealValue
        IntrinsicKind.Declare := rfl

/-- C8: an `ArtificialLocation` constructed with a null debug-info
pointer is a complete no-op: the constructor pushes nothing and leaves
the Builder's debug location untouched, and the destructor pops nothing,
leaving all state unchanged. -/
theorem artificialLocation_null_noop (b : IRBuilder) :
    ArtificialLocation.construct none b = (none, b) ∧
      ArtificialLocation.destruct none b = some (none, b) :=
  ⟨rfl, rfl⟩

/-- C9: `clearLoc` leaves the location stack unchanged — only `LastLoc`,
`LastScope` and the Builder's debug location are modified. -/
theorem clearLoc_stack_unchanged (s : EmitterState) (b : IRBuilder) :
    (clearLoc s b).1.locationStack = s.locationStack := rfl

/-- C10: the convenience overload `emitArtificialFunction(IGF, Fn, SILTy)`
is equivalent to the four-argument overload applied to
`*IGF.IGM.SILMod` and `IGF.Builder`: both produce the same emission and
the same Builder state. -/
theorem emitArtificialFunction_overload_equiv (igf : IRGenFunction)
    (fn : Nat) (silTy : Option Nat) :
    emitArtificialFunctionIGF igf fn silTy =
      emitArtificialFunction igf.IGM.SILMod igf.Builder fn silTy := rfl

end IRGenDebug
